import Mathlib

/-!
Verification of the Tempo-BT smpmgr plugin
(src/smpmgr-extensions/plugins/tempo_group.py).

The plugin declares a catalog of SMP request/response message classes for
management group 64 and a set of Typer CLI subcommands that validate their
arguments, build a request object, send it over an SMP client connection
and render the response.  The shallow embedding below models:

- the numeric constants and the group/command identifiers carried by every
  message class in the catalog;
- the argument-validation and request-building logic of the CLI
  subcommands (led-on, logger-control, session-delete, settings-set), with
  Python strings embedded as List Char;
- the request trace of each subcommand dispatcher (which requests it sends
  on a given invocation).
-/

namespace TempoGroup

/-- Fixed group identifier of the Tempo management group
(MGMT_GROUP_ID_TEMPO = 64 in the source). -/
def MGMT_GROUP_ID_TEMPO : Nat := 64

/-- Command id of the session-list operation. -/
def TEMPO_MGMT_ID_SESSION_LIST : Nat := 0

/-- Command id of the session-info operation (declared but carried by no
message class in the file). -/
def TEMPO_MGMT_ID_SESSION_INFO : Nat := 1

/-- Command id of the storage-info operation. -/
def TEMPO_MGMT_ID_STORAGE_INFO : Nat := 2

/-- Command id of the led-control operation. -/
def TEMPO_MGMT_ID_LED_CONTROL : Nat := 3

/-- Command id of the logger-control operation. -/
def TEMPO_MGMT_ID_LOGGER_CONTROL : Nat := 4

/-- Command id of the session-delete operation. -/
def TEMPO_MGMT_ID_SESSION_DELETE : Nat := 5

/-- Command id of the settings-get operation. -/
def TEMPO_MGMT_ID_SETTINGS_GET : Nat := 6

/-- Command id of the settings-set operation. -/
def TEMPO_MGMT_ID_SETTINGS_SET : Nat := 7

/-- The eight per-command ids declared for group 64, in source order. -/
def tempoCommandIds : List Nat :=
  [TEMPO_MGMT_ID_SESSION_LIST, TEMPO_MGMT_ID_SESSION_INFO,
   TEMPO_MGMT_ID_STORAGE_INFO, TEMPO_MGMT_ID_LED_CONTROL,
   TEMPO_MGMT_ID_LOGGER_CONTROL, TEMPO_MGMT_ID_SESSION_DELETE,
   TEMPO_MGMT_ID_SETTINGS_GET, TEMPO_MGMT_ID_SETTINGS_SET]

/-- Identification data of a request message class: the class attributes
_GROUP_ID and _COMMAND_ID. -/
structure ReqClass where
  groupId : Nat
  commandId : Nat
deriving DecidableEq

/-- Identification data of a response message class: the class attributes
_GROUP_ID and _COMMAND_ID. -/
structure RespClass where
  groupId : Nat
  commandId : Nat
deriving DecidableEq

/-- Identification data of an error message class (errors carry only a
_GROUP_ID). -/
structure ErrClass where
  groupId : Nat
deriving DecidableEq

/-- SessionListRequest class attributes. -/
def SessionListRequest : ReqClass :=
  ⟨MGMT_GROUP_ID_TEMPO, TEMPO_MGMT_ID_SESSION_LIST⟩

/-- SessionListResponse class attributes. -/
def SessionListResponse : RespClass :=
  ⟨MGMT_GROUP_ID_TEMPO, TEMPO_MGMT_ID_SESSION_LIST⟩

/-- StorageInfoRequest class attributes. -/
def StorageInfoRequest : ReqClass :=
  ⟨MGMT_GROUP_ID_TEMPO, TEMPO_MGMT_ID_STORAGE_INFO⟩

/-- StorageInfoResponse class attributes. -/
def StorageInfoResponse : RespClass :=
  ⟨MGMT_GROUP_ID_TEMPO, TEMPO_MGMT_ID_STORAGE_INFO⟩

/-- LEDControlRequest class attributes. -/
def LEDControlRequest : ReqClass :=
  ⟨MGMT_GROUP_ID_TEMPO, TEMPO_MGMT_ID_LED_CONTROL⟩

/-- LEDControlResponse class attributes. -/
def LEDControlResponse : RespClass :=
  ⟨MGMT_GROUP_ID_TEMPO, TEMPO_MGMT_ID_LED_CONTROL⟩

/-- LoggerControlRequest class attributes. -/
def LoggerControlRequest : ReqClass :=
  ⟨MGMT_GROUP_ID_TEMPO, TEMPO_MGMT_ID_LOGGER_CONTROL⟩

/-- LoggerControlResponse class attributes. -/
def LoggerControlResponse : RespClass :=
  ⟨MGMT_GROUP_ID_TEMPO, TEMPO_MGMT_ID_LOGGER_CONTROL⟩

/-- SettingsGetRequest class attributes. -/
def SettingsGetRequest : ReqClass :=
  ⟨MGMT_GROUP_ID_TEMPO, TEMPO_MGMT_ID_SETTINGS_GET⟩

/-- SettingsGetResponse class attributes. -/
def SettingsGetResponse : RespClass :=
  ⟨MGMT_GROUP_ID_TEMPO, TEMPO_MGMT_ID_SETTINGS_GET⟩

/-- SettingsSetRequest class attributes. -/
def SettingsSetRequest : ReqClass :=
  ⟨MGMT_GROUP_ID_TEMPO, TEMPO_MGMT_ID_SETTINGS_SET⟩

/-- SettingsSetResponse class attributes. -/
def SettingsSetResponse : RespClass :=
  ⟨MGMT_GROUP_ID_TEMPO, TEMPO_MGMT_ID_SETTINGS_SET⟩

/-- SessionDeleteRequest class attributes. -/
def SessionDeleteRequest : ReqClass :=
  ⟨MGMT_GROUP_ID_TEMPO, TEMPO_MGMT_ID_SESSION_DELETE⟩

/-- SessionDeleteResponse class attributes. -/
def SessionDeleteResponse : RespClass :=
  ⟨MGMT_GROUP_ID_TEMPO, TEMPO_MGMT_ID_SESSION_DELETE⟩

/-- TempoErrorV1 class attributes (ErrorV1 subclass with _GROUP_ID 64). -/
def TempoErrorV1 : ErrClass := ⟨MGMT_GROUP_ID_TEMPO⟩

/-- TempoErrorV2 class attributes (ErrorV2 subclass with _GROUP_ID 64). -/
def TempoErrorV2 : ErrClass := ⟨MGMT_GROUP_ID_TEMPO⟩

/-- An operation binding: a request subclass binding _Response to a
response class (it inherits _GROUP_ID and _COMMAND_ID from its request
parent). -/
structure OpBinding where
  request : ReqClass
  response : RespClass
deriving DecidableEq

/-- SessionList binds SessionListRequest to SessionListResponse. -/
def SessionList : OpBinding := ⟨SessionListRequest, SessionListResponse⟩

/-- StorageInfo binds StorageInfoRequest to StorageInfoResponse. -/
def StorageInfo : OpBinding := ⟨StorageInfoRequest, StorageInfoResponse⟩

/-- LEDControl binds LEDControlRequest to LEDControlResponse. -/
def LEDControl : OpBinding := ⟨LEDControlRequest, LEDControlResponse⟩

/-- LoggerControl binds LoggerControlRequest to LoggerControlResponse. -/
def LoggerControl : OpBinding := ⟨LoggerControlRequest, LoggerControlResponse⟩

/-- SettingsGet binds SettingsGetRequest to SettingsGetResponse. -/
def SettingsGet : OpBinding := ⟨SettingsGetRequest, SettingsGetResponse⟩

/-- SettingsSet binds SettingsSetRequest to SettingsSetResponse. -/
def SettingsSet : OpBinding := ⟨SettingsSetRequest, SettingsSetResponse⟩

/-- SessionDelete binds SessionDeleteRequest to SessionDeleteResponse. -/
def SessionDelete : OpBinding := ⟨SessionDeleteRequest, SessionDeleteResponse⟩

/-- All operation bindings declared in the file (session-info has none). -/
def catalogOps : List OpBinding :=
  [SessionList, StorageInfo, LEDControl, LoggerControl, SessionDelete,
   SettingsGet, SettingsSet]

/-- Group identifiers of every message class declared in the file: each
request class, each response class and both error classes.  The operation
subclasses (SessionList, ..., SessionDelete) inherit the group of their
request parent, which is already listed. -/
def catalogGroupIds : List Nat :=
  [SessionListRequest.groupId, SessionListResponse.groupId,
   StorageInfoRequest.groupId, StorageInfoResponse.groupId,
   LEDControlRequest.groupId, LEDControlResponse.groupId,
   LoggerControlRequest.groupId, LoggerControlResponse.groupId,
   SettingsGetRequest.groupId, SettingsGetResponse.groupId,
   SettingsSetRequest.groupId, SettingsSetResponse.groupId,
   SessionDeleteRequest.groupId, SessionDeleteResponse.groupId,
   TempoErrorV1.groupId, TempoErrorV2.groupId]

/-!
CLI subcommand models.  Python strings are embedded as List Char (one
entry per code point, as in a Python str).  Each dispatcher is modelled
as a function from its (already parsed) command-line arguments to an
outcome: either an early exit raised by typer.Exit before any request is
built, or the one request object it hands to smpclient.request.
-/

/-- Result of str.startswith applied with the literal hash character, as
in the led-on color check. -/
def startsWithHash : List Char → Bool
  | [] => false
  | c :: _ => c = '#'

/-- Result of str.lstrip applied with the hash character as argument:
Python removes every leading occurrence, not just one. -/
def lstripHash : List Char → List Char
  | [] => []
  | c :: rest => if c = '#' then lstripHash rest else c :: rest

/-- Value of an ASCII hexadecimal digit character, none for any other
character.  Works on the code point so that the arithmetic stays in
Nat. -/
def hexDigitVal (c : Char) : Option Nat :=
  let n := c.toNat
  if 48 ≤ n ∧ n ≤ 57 then some (n - 48)
  else if 97 ≤ n ∧ n ≤ 102 then some (n - 97 + 10)
  else if 65 ≤ n ∧ n ≤ 70 then some (n - 65 + 10)
  else none

/-- Characters stripped as whitespace by CPython int conversion
(Py_UNICODE_ISSPACE), by code point. -/
def isPySpace (c : Char) : Bool :=
  [9, 10, 11, 12, 13, 28, 29, 30, 31, 32, 133, 160, 5760,
   8192, 8193, 8194, 8195, 8196, 8197, 8198, 8199, 8200, 8201, 8202,
   8232, 8233, 8239, 8287, 12288].contains c.toNat

/-- Model of CPython int(s, 16) on the two-character slices led-on feeds
it: two hex digits give the byte value; a single hex digit preceded by a
sign or padded by one whitespace character is also accepted (int strips
whitespace and allows a sign); everything else raises ValueError, here
none.  Non-ASCII decimal digits, which CPython would map to ASCII first,
are not modelled; no claim is settled on such inputs. -/
def pyInt16 (s : List Char) : Option Int :=
  match s with
  | [c1, c2] =>
    match hexDigitVal c1, hexDigitVal c2 with
    | some v1, some v2 => some (16 * (v1 : Int) + v2)
    | _, _ =>
      if c1 = '+' then (hexDigitVal c2).map (fun v => (v : Int))
      else if c1 = '-' then (hexDigitVal c2).map (fun v => -(v : Int))
      else if isPySpace c1 then (hexDigitVal c2).map (fun v => (v : Int))
      else if isPySpace c2 then (hexDigitVal c1).map (fun v => (v : Int))
      else none
  | _ => none

/-- Python str.lower restricted to ASCII letters.  No preset name
contains a character with a non-trivial Unicode lowercase preimage, so
on the inputs compared against preset names this agrees with
str.lower. -/
def asciiLower (c : Char) : Char :=
  if 65 ≤ c.toNat ∧ c.toNat ≤ 90 then Char.ofNat (c.toNat + 32) else c

/-- The led-on color presets, in source order: name and RGB triple. -/
def presets : List (List Char × Int × Int × Int) :=
  [("red".data, 255, 0, 0),
   ("green".data, 0, 255, 0),
   ("blue".data, 0, 0, 255),
   ("yellow".data, 255, 255, 0),
   ("cyan".data, 0, 255, 255),
   ("magenta".data, 255, 0, 255),
   ("white".data, 255, 255, 255),
   ("orange".data, 255, 128, 0)]

/-- Dictionary lookup presets[color.lower()]. -/
def presetLookup (key : List Char) : Option (Int × Int × Int) :=
  (presets.find? (fun p => p.1 = key)).map (fun p => p.2)

/-- Field data of a LEDControl request object. -/
structure LEDControlReqData where
  enable : Bool
  r : Int
  g : Int
  b : Int
deriving DecidableEq

/-- Outcome of the led-on dispatcher before the transport is touched. -/
inductive LedOnOutcome where
  | exit1
  | send (req : LEDControlReqData)
deriving DecidableEq

/-- Model of the led_on dispatcher body: parse the color argument and
either raise typer.Exit(1) or build the LEDControl request that
smpclient.request is called with.  Mirrors the source: a color starting
with the hash character goes down the hex path (lstrip, length check,
three int(slice, 16) calls, any ValueError exiting); otherwise the
lowercased color is looked up among the presets. -/
def led_on (color : List Char) : LedOnOutcome :=
  if startsWithHash color then
    let hex := lstripHash color
    if hex.length ≠ 6 then .exit1
    else
      match pyInt16 (hex.take 2), pyInt16 ((hex.drop 2).take 2),
            pyInt16 ((hex.drop 4).take 2) with
      | some r, some g, some b => .send ⟨true, r, g, b⟩
      | _, _, _ => .exit1
  else
    match presetLookup (color.map asciiLower) with
    | some (r, g, b) => .send ⟨true, r, g, b⟩
    | none => .exit1

/-- Outcome of the logger-control dispatcher. -/
inductive LoggerControlOutcome where
  | exit1
  | send (action : List Char)
deriving DecidableEq

/-- The valid_actions list of the logger-control dispatcher. -/
def valid_actions : List (List Char) :=
  ["start".data, "stop".data, "arm".data, "disarm".data]

/-- Model of the logger_control dispatcher body: reject an action outside
valid_actions with typer.Exit(1), otherwise send LoggerControl carrying
the action verbatim. -/
def logger_control (action : List Char) : LoggerControlOutcome :=
  if action ∈ valid_actions then .send action else .exit1

/-- Field data of a SessionDelete request object. -/
structure SessionDeleteReqData where
  session : List Char
deriving DecidableEq

/-- Outcome of the session-delete dispatcher: either cancelled at the
confirmation prompt (typer.Exit() with no request built) or the one
request sent. -/
inductive SessionDeleteOutcome where
  | cancelled
  | send (req : SessionDeleteReqData)
deriving DecidableEq

/-- Run of the session-delete dispatcher: whether the confirmation prompt
was issued, and the outcome. -/
structure SessionDeleteRun where
  prompted : Bool
  outcome : SessionDeleteOutcome
deriving DecidableEq

/-- Model of the session_delete dispatcher body.  Arguments: the session
name, the --yes flag, and the answer the user would give at the
typer.confirm prompt.  Without --yes the prompt is issued, and a negative
answer cancels before any request is built; otherwise SessionDelete is
sent with the session name. -/
def session_delete (session : List Char) (yes confirmAnswer : Bool) :
    SessionDeleteRun :=
  if yes = false then
    if confirmAnswer = false then ⟨true, .cancelled⟩
    else ⟨true, .send ⟨session⟩⟩
  else ⟨false, .send ⟨session⟩⟩

/-- Parsed command-line options of the settings-set dispatcher; a none is
an option the user did not supply. -/
structure SettingsSetArgs where
  ble_name : Option (List Char)
  pps_enabled : Option Bool
  pcb_variant : Option Int
  log_backend : Option (List Char)
deriving DecidableEq

/-- Field data of a SettingsSet request object; every field defaults to
none as in the SettingsSetRequest class. -/
structure SettingsSetReqData where
  ble_name : Option (List Char) := none
  pps_enabled : Option Bool := none
  pcb_variant : Option Int := none
  log_backend : Option (List Char) := none
deriving DecidableEq

/-- Outcome of the settings-set dispatcher. -/
inductive SettingsSetOutcome where
  | exit1
  | send (req : SettingsSetReqData)
deriving DecidableEq

/-- Check all(opt is None for opt in [ble_name, pps_enabled, pcb_variant,
log_backend]). -/
def allSettingsNone (a : SettingsSetArgs) : Bool :=
  a.ble_name.isNone && a.pps_enabled.isNone &&
  a.pcb_variant.isNone && a.log_backend.isNone

/-- Check ble_name is not None and len(ble_name) > 31. -/
def bleNameTooLong : Option (List Char) → Bool
  | none => false
  | some s => decide (31 < s.length)

/-- Check pcb_variant is not None and not 0 <= pcb_variant <= 255. -/
def pcbVariantOutOfRange : Option Int → Bool
  | none => false
  | some v => decide (¬ (0 ≤ v ∧ v ≤ 255))

/-- Check log_backend is not None and log_backend not in the two-element
allowed list. -/
def logBackendInvalid : Option (List Char) → Bool
  | none => false
  | some s => decide (¬ (s = "fatfs".data ∨ s = "littlefs".data))

/-- Body of settings_set's async closure: start from a request object with
every field at its default none, then assign exactly the fields whose
option was supplied. -/
def buildSettingsSetRequest (a : SettingsSetArgs) : SettingsSetReqData :=
  let r : SettingsSetReqData := {}
  let r := match a.ble_name with
    | some v => { r with ble_name := some v }
    | none => r
  let r := match a.pps_enabled with
    | some v => { r with pps_enabled := some v }
    | none => r
  let r := match a.pcb_variant with
    | some v => { r with pcb_variant := some v }
    | none => r
  let r := match a.log_backend with
    | some v => { r with log_backend := some v }
    | none => r
  r

/-- Model of the settings_set dispatcher body: the four validation checks
in source order, each raising typer.Exit(1), then the request built from
the supplied options is sent. -/
def settings_set (a : SettingsSetArgs) : SettingsSetOutcome :=
  if allSettingsNone a then .exit1
  else if bleNameTooLong a.ble_name then .exit1
  else if pcbVariantOutOfRange a.pcb_variant then .exit1
  else if logBackendInvalid a.log_backend then .exit1
  else .send (buildSettingsSetRequest a)

/-!
Request traces.  A dispatcher's trace is the list of requests it hands to
smpclient.request on one invocation, in order; each such call awaits
exactly one response from the library before the dispatcher continues.
The dispatcher bodies are straight-line: they contain no loop and no
retry, so the trace is determined by the validation outcome alone.
-/

/-- A request of the Tempo group, tagged by its operation. -/
inductive TempoRequest where
  | sessionList
  | storageInfo
  | ledControl (req : LEDControlReqData)
  | loggerControl (action : List Char)
  | sessionDelete (req : SessionDeleteReqData)
  | settingsGet
  | settingsSet (req : SettingsSetReqData)
deriving DecidableEq

/-- Requests sent by one invocation of session-list. -/
def session_list_requests : List TempoRequest := [.sessionList]

/-- Requests sent by one invocation of storage-info. -/
def storage_info_requests : List TempoRequest := [.storageInfo]

/-- Requests sent by one invocation of led-on. -/
def led_on_requests (color : List Char) : List TempoRequest :=
  match led_on color with
  | .send r => [.ledControl r]
  | .exit1 => []

/-- Requests sent by one invocation of led-off. -/
def led_off_requests : List TempoRequest := [.ledControl ⟨false, 0, 0, 0⟩]

/-- Requests sent by one invocation of logger-start. -/
def logger_start_requests : List TempoRequest :=
  [.loggerControl "start".data]

/-- Requests sent by one invocation of logger-stop. -/
def logger_stop_requests : List TempoRequest :=
  [.loggerControl "stop".data]

/-- Requests sent by one invocation of logger-arm. -/
def logger_arm_requests : List TempoRequest :=
  [.loggerControl "arm".data]

/-- Requests sent by one invocation of logger-disarm. -/
def logger_disarm_requests : List TempoRequest :=
  [.loggerControl "disarm".data]

/-- Requests sent by one invocation of logger-control. -/
def logger_control_requests (action : List Char) : List TempoRequest :=
  match logger_control action with
  | .send a => [.loggerControl a]
  | .exit1 => []

/-- Requests sent by one invocation of session-delete. -/
def session_delete_requests (session : List Char) (yes confirmAnswer : Bool) :
    List TempoRequest :=
  match (session_delete session yes confirmAnswer).outcome with
  | .send r => [.sessionDelete r]
  | .cancelled => []

/-- Requests sent by one invocation of settings-get. -/
def settings_get_requests : List TempoRequest := [.settingsGet]

/-- Requests sent by one invocation of settings-set. -/
def settings_set_requests (a : SettingsSetArgs) : List TempoRequest :=
  match settings_set a with
  | .send r => [.settingsSet r]
  | .exit1 => []

/-!
Plugin file versions.  Only the later version of the plugin file is
present under src/; the spec describes the earlier one as the same file
minus three commands and two fields, so the earlier version is modelled
from the spec as that restriction.
-/

/-- CLI command names registered on the Typer app by the present file, in
source order. -/
def secondVersionCommands : List String :=
  ["session-list", "storage-info", "led-on", "led-off",
   "logger-start", "logger-stop", "logger-arm", "logger-disarm",
   "logger-control", "session-delete", "settings-get", "settings-set"]

/-- Commands the present file marks as additions in its comments: the
session-delete classes are labelled missing from the earlier plugin and
the settings commands are labelled as added. -/
def addedCommands : List String :=
  ["session-delete", "settings-get", "settings-set"]

/-- Modelled from the spec: the command list of the earlier plugin file
version, which is not among the sources.  The spec says the present file
is a superset adding three commands, so the earlier version carries the
present commands minus the three added ones. -/
def firstVersionCommands : List String :=
  secondVersionCommands.filter (fun c => ¬ addedCommands.contains c)

/-- Field names of the LoggerControlResponse class in the present file. -/
def secondVersionLoggerRespFields : List String :=
  ["state", "success", "session_id", "session_path"]

/-- Modelled from the spec: the two message fields the present file adds
over the earlier version, taken as the two optional-with-default fields
of LoggerControlResponse, the only class shared by both versions that
carries such fields. -/
def addedFields : List String := ["session_id", "session_path"]

/-- Modelled from the spec: the LoggerControlResponse field list of the
earlier plugin file version, the present fields minus the two added
ones. -/
def firstVersionLoggerRespFields : List String :=
  secondVersionLoggerRespFields.filter (fun f => ¬ addedFields.contains f)

/-- Arguments an invocation of any of the CLI commands may carry. -/
structure CmdInvocation where
  color : List Char
  action : List Char
  session : List Char
  yes : Bool
  confirmAnswer : Bool
  settings : SettingsSetArgs
deriving DecidableEq

/-- Request trace of each command of the present file on one
invocation. -/
def secondVersionDispatch (cmd : String) (inv : CmdInvocation) :
    List TempoRequest :=
  if cmd = "session-list" then session_list_requests
  else if cmd = "storage-info" then storage_info_requests
  else if cmd = "led-on" then led_on_requests inv.color
  else if cmd = "led-off" then led_off_requests
  else if cmd = "logger-start" then logger_start_requests
  else if cmd = "logger-stop" then logger_stop_requests
  else if cmd = "logger-arm" then logger_arm_requests
  else if cmd = "logger-disarm" then logger_disarm_requests
  else if cmd = "logger-control" then logger_control_requests inv.action
  else if cmd = "session-delete" then
    session_delete_requests inv.session inv.yes inv.confirmAnswer
  else if cmd = "settings-get" then settings_get_requests
  else if cmd = "settings-set" then settings_set_requests inv.settings
  else []

/-- Modelled from the spec: the request trace of each command of the
earlier plugin file version, which is not among the sources.  The spec
says the two versions behave identically on the commands they share, so
the earlier version's dispatch is the restriction of the present one to
its own command list. -/
def firstVersionDispatch (cmd : String) (inv : CmdInvocation) :
    List TempoRequest :=
  if firstVersionCommands.contains cmd then secondVersionDispatch cmd inv
  else []

/-- Helper: the request object settings_set builds always carries exactly
the supplied option values, field by field. -/
theorem buildSettingsSetRequest_eq (a : SettingsSetArgs) :
    buildSettingsSetRequest a =
      ⟨a.ble_name, a.pps_enabled, a.pcb_variant, a.log_backend⟩ := by
  obtain ⟨bn, pe, pv, lb⟩ := a
  cases bn <;> cases pe <;> cases pv <;> cases lb <;> rfl

/-- Claim C1: for every device operation declared in the message catalog,
the request class and the response class bound to it via _Response carry
the same group identifier and the same command opcode. -/
theorem tempo_C1 : ∀ op ∈ catalogOps,
    op.request.groupId = op.response.groupId ∧
    op.request.commandId = op.response.commandId := by decide

/-- Witness for C1 at the SettingsSet binding. -/
theorem tempo_C1_witness :
    SettingsSet.request.groupId = SettingsSet.response.groupId ∧
    SettingsSet.request.commandId = SettingsSet.response.commandId :=
  tempo_C1 SettingsSet (by decide)

/-- Claim C2: every message class declared by the plugin, every request
class, every response class and both error classes, carries the one group
identifier 64; no class in the catalog carries another group id. -/
theorem tempo_C2 : ∀ g ∈ catalogGroupIds, g = 64 := by decide

/-- Witness for C2 at the TempoErrorV1 class. -/
theorem tempo_C2_witness : TempoErrorV1.groupId = 64 :=
  tempo_C2 TempoErrorV1.groupId (by decide)

/-- Claim C3: the eight command ids declared for group 64 take the values
0 through 7 in source order and are pairwise distinct, so within the
group each opcode selects exactly one operation. -/
theorem tempo_C3 :
    tempoCommandIds = [0, 1, 2, 3, 4, 5, 6, 7] ∧
    tempoCommandIds.Pairwise (fun i j => i ≠ j) := by
  exact ⟨rfl, by decide⟩

/-- Helper: the all-options-none check holds exactly when every option is
none. -/
theorem allSettingsNone_iff (a : SettingsSetArgs) :
    allSettingsNone a = true ↔
      (a.ble_name = none ∧ a.pps_enabled = none ∧ a.pcb_variant = none ∧
        a.log_backend = none) := by
  simp [allSettingsNone, Option.isNone_iff_eq_none, and_assoc]

/-- Helper: the ble_name length check holds exactly when a name longer
than 31 characters was supplied. -/
theorem bleNameTooLong_iff (o : Option (List Char)) :
    bleNameTooLong o = true ↔ ∃ s, o = some s ∧ 31 < s.length := by
  cases o <;> simp [bleNameTooLong]

/-- Helper: the pcb_variant range check holds exactly when a value
outside 0..255 was supplied. -/
theorem pcbVariantOutOfRange_iff (o : Option Int) :
    pcbVariantOutOfRange o = true ↔
      ∃ v, o = some v ∧ (v < 0 ∨ 255 < v) := by
  cases o <;> simp [pcbVariantOutOfRange]

/-- Helper: the log_backend check holds exactly when a backend other than
the two allowed ones was supplied. -/
theorem logBackendInvalid_iff (o : Option (List Char)) :
    logBackendInvalid o = true ↔
      ∃ s, o = some s ∧ s ≠ "fatfs".data ∧ s ≠ "littlefs".data := by
  cases o <;> simp [logBackendInvalid]

/-- Claim C4: settings-set exits with code 1 before building or sending a
request exactly when no option is supplied, or the supplied ble_name is
longer than 31 characters, or the supplied pcb_variant lies outside
0..255, or the supplied log_backend is neither of the two allowed
backends; every other invocation reaches the request-sending path. -/
theorem tempo_C4 : ∀ a : SettingsSetArgs,
    settings_set a = SettingsSetOutcome.exit1 ↔
      ((a.ble_name = none ∧ a.pps_enabled = none ∧ a.pcb_variant = none ∧
        a.log_backend = none) ∨
       (∃ s, a.ble_name = some s ∧ 31 < s.length) ∨
       (∃ v, a.pcb_variant = some v ∧ (v < 0 ∨ 255 < v)) ∨
       (∃ s, a.log_backend = some s ∧ s ≠ "fatfs".data ∧
         s ≠ "littlefs".data)) := by
  intro a
  have h : settings_set a = SettingsSetOutcome.exit1 ↔
      (allSettingsNone a = true ∨ bleNameTooLong a.ble_name = true ∨
       pcbVariantOutOfRange a.pcb_variant = true ∨
       logBackendInvalid a.log_backend = true) := by
    unfold settings_set
    by_cases h1 : allSettingsNone a = true <;>
      by_cases h2 : bleNameTooLong a.ble_name = true <;>
      by_cases h3 : pcbVariantOutOfRange a.pcb_variant = true <;>
      by_cases h4 : logBackendInvalid a.log_backend = true <;>
      simp [h1, h2, h3, h4]
  rw [h, allSettingsNone_iff, bleNameTooLong_iff, pcbVariantOutOfRange_iff,
    logBackendInvalid_iff]

/-- Claim C9: session-delete without the --yes flag issues the
confirmation prompt, a declined confirmation cancels before any request
is built, and the SessionDelete request is sent exactly when --yes is
given or the prompt is answered affirmatively. -/
theorem tempo_C9 : ∀ (s : List Char) (yes ans : Bool),
    (yes = false →
      (session_delete s yes ans).prompted = true ∧
      (ans = false →
        (session_delete s yes ans).outcome = SessionDeleteOutcome.cancelled)) ∧
    ((session_delete s yes ans).outcome = SessionDeleteOutcome.send ⟨s⟩ ↔
      (yes = true ∨ ans = true)) := by
  intro s yes ans
  cases yes <;> cases ans <;> simp [session_delete]

/-- Witness for C9: declining the prompt on a concrete session cancels. -/
theorem tempo_C9_witness :
    (session_delete "20250117/7BF3655C".data false false).outcome =
      SessionDeleteOutcome.cancelled :=
  ((tempo_C9 "20250117/7BF3655C".data false false).1 rfl).2 rfl

/-- Claim C10: whenever settings-set sends a request, that request carries
exactly the supplied option values: each supplied field equals its
option, and each unsupplied field is still none. -/
theorem tempo_C10 : ∀ (a : SettingsSetArgs) (req : SettingsSetReqData),
    settings_set a = SettingsSetOutcome.send req →
    req.ble_name = a.ble_name ∧ req.pps_enabled = a.pps_enabled ∧
    req.pcb_variant = a.pcb_variant ∧ req.log_backend = a.log_backend := by
  intro a req h
  unfold settings_set at h
  split_ifs at h
  rw [buildSettingsSetRequest_eq] at h
  cases h
  exact ⟨rfl, rfl, rfl, rfl⟩

/-- Witness for C10 at a concrete invocation supplying only ble_name. -/
theorem tempo_C10_witness :
    settings_set ⟨some "Tempo".data, none, none, none⟩ =
      SettingsSetOutcome.send
        { ble_name := some "Tempo".data } ∧
    (SettingsSetReqData.ble_name { ble_name := some "Tempo".data } =
      some "Tempo".data) :=
  ⟨by decide,
   (tempo_C10 ⟨some "Tempo".data, none, none, none⟩
     { ble_name := some "Tempo".data } (by decide)).1⟩

/-- Helper: a hexadecimal digit value is at most 15. -/
theorem hexDigitVal_le15 (c : Char) (v : Nat) (h : hexDigitVal c = some v) :
    v ≤ 15 := by
  simp only [hexDigitVal] at h
  split_ifs at h <;> (injection h with h; omega)

/-- Helper: a character with a hexadecimal digit value is not the hash
character. -/
theorem hexDigitVal_ne_hash (c : Char) (v : Nat)
    (h : hexDigitVal c = some v) : c ≠ '#' := by
  intro hc
  rw [hc] at h
  exact Option.noConfusion ((show hexDigitVal '#' = none by decide) ▸ h)

/-- Helper: on two hexadecimal digits, the modelled int(s, 16) returns
the byte value. -/
theorem pyInt16_hex (c1 c2 : Char) (v1 v2 : Nat)
    (h1 : hexDigitVal c1 = some v1) (h2 : hexDigitVal c2 = some v2) :
    pyInt16 [c1, c2] = some (16 * (v1 : Int) + v2) := by
  simp [pyInt16, h1, h2]

/-- Claim C6 (as it reads on genuinely well-formed colors): a hash sign
followed by exactly six hexadecimal digits sends an enabled LEDControl
request whose r, g, b are the three two-digit byte fields, each within
0..255, and a preset name (matched after lowercasing) sends that preset's
triple, also within 0..255; in particular red gives (255,0,0) and orange
gives (255,128,0). -/
theorem tempo_C6 :
    (∀ (c1 c2 c3 c4 c5 c6 : Char) (v1 v2 v3 v4 v5 v6 : Nat),
      hexDigitVal c1 = some v1 → hexDigitVal c2 = some v2 →
      hexDigitVal c3 = some v3 → hexDigitVal c4 = some v4 →
      hexDigitVal c5 = some v5 → hexDigitVal c6 = some v6 →
      led_on ('#' :: [c1, c2, c3, c4, c5, c6]) =
        LedOnOutcome.send
          ⟨true, 16 * (v1 : Int) + v2, 16 * (v3 : Int) + v4,
            16 * (v5 : Int) + v6⟩ ∧
      (0 ≤ 16 * (v1 : Int) + v2 ∧ 16 * (v1 : Int) + v2 ≤ 255) ∧
      (0 ≤ 16 * (v3 : Int) + v4 ∧ 16 * (v3 : Int) + v4 ≤ 255) ∧
      (0 ≤ 16 * (v5 : Int) + v6 ∧ 16 * (v5 : Int) + v6 ≤ 255)) ∧
    (∀ (color : List Char) (r g b : Int),
      startsWithHash color = false →
      presetLookup (color.map asciiLower) = some (r, g, b) →
      led_on color = LedOnOutcome.send ⟨true, r, g, b⟩ ∧
      (0 ≤ r ∧ r ≤ 255) ∧ (0 ≤ g ∧ g ≤ 255) ∧ (0 ≤ b ∧ b ≤ 255)) ∧
    led_on "red".data = LedOnOutcome.send ⟨true, 255, 0, 0⟩ ∧
    led_on "orange".data = LedOnOutcome.send ⟨true, 255, 128, 0⟩ := by
  refine ⟨?_, ?_, by decide, by decide⟩
  · intro c1 c2 c3 c4 c5 c6 v1 v2 v3 v4 v5 v6 h1 h2 h3 h4 h5 h6
    have b1 := hexDigitVal_le15 c1 v1 h1
    have b2 := hexDigitVal_le15 c2 v2 h2
    have b3 := hexDigitVal_le15 c3 v3 h3
    have b4 := hexDigitVal_le15 c4 v4 h4
    have b5 := hexDigitVal_le15 c5 v5 h5
    have b6 := hexDigitVal_le15 c6 v6 h6
    have hstrip :
        lstripHash ('#' :: [c1, c2, c3, c4, c5, c6]) =
          [c1, c2, c3, c4, c5, c6] := by
      simp [lstripHash, hexDigitVal_ne_hash c1 v1 h1]
    refine ⟨?_, by omega, by omega, by omega⟩
    simp only [led_on, startsWithHash, hstrip]
    simp [pyInt16_hex c1 c2 v1 v2 h1 h2, pyInt16_hex c3 c4 v3 v4 h3 h4,
      pyInt16_hex c5 c6 v5 v6 h5 h6, List.take, List.drop]
  · intro color r g b hsw hlook
    constructor
    · simp [led_on, hsw, hlook]
    · have hp : ∃ p ∈ presets, p.2 = (r, g, b) := by
        unfold presetLookup at hlook
        cases hfind : presets.find? (fun p => p.1 = color.map asciiLower) with
        | none => rw [hfind] at hlook; cases hlook
        | some p =>
          rw [hfind] at hlook
          refine ⟨p, List.mem_of_find?_eq_some hfind, ?_⟩
          simpa using hlook
      obtain ⟨p, hmem, hsnd⟩ := hp
      have hb : ∀ q ∈ presets,
          (0 ≤ q.2.1 ∧ q.2.1 ≤ 255) ∧ (0 ≤ q.2.2.1 ∧ q.2.2.1 ≤ 255) ∧
          (0 ≤ q.2.2.2 ∧ q.2.2.2 ≤ 255) := by decide
      have := hb p hmem
      rw [hsnd] at this
      exact this

/-- Witness for C6: a concrete hex color and the red preset. -/
theorem tempo_C6_witness :
    led_on ('#' :: ['1', 'a', 'F', '0', 'b', '3']) =
      LedOnOutcome.send
        ⟨true, 16 * ((1 : Nat) : Int) + (10 : Nat),
          16 * ((15 : Nat) : Int) + (0 : Nat),
          16 * ((11 : Nat) : Int) + (3 : Nat)⟩ ∧
    led_on "red".data = LedOnOutcome.send ⟨true, 255, 0, 0⟩ :=
  ⟨(tempo_C6.1 '1' 'a' 'F' '0' 'b' '3' 1 10 15 0 11 3
      (by decide) (by decide) (by decide) (by decide) (by decide)
      (by decide)).1,
   (tempo_C6.2.1 "red".data 255 0 0 (by decide) (by decide)).1⟩

/-- Counterexample to claim C5: the color written with two leading hash
characters is neither a preset name nor a hash sign followed by exactly
six hexadecimal digits (after the hash come seven characters), yet
led-on does not exit: Python's lstrip removes every leading hash, so an
enabled LEDControl request is built and sent. -/
theorem tempo_C5_counterexample :
    led_on "##ff0000".data = LedOnOutcome.send ⟨true, 255, 0, 0⟩ ∧
    "##ff0000".data.map asciiLower ∉ presets.map Prod.fst ∧
    ¬ (("##ff0000".data.drop 1).length = 6 ∧
       ∀ c ∈ "##ff0000".data.drop 1, (hexDigitVal c).isSome = true) := by
  exact ⟨by decide, by decide, by decide⟩

/-- Claim C5 as amended: for an ASCII color argument, led-on exits with
code 1 (sending nothing) exactly when the argument is neither a preset
name, matched case-insensitively, nor a string starting with a hash sign
for which stripping every leading hash leaves exactly six characters
whose three two-character slices each parse as base-16 integers under
Python int semantics (two hex digits, or one hex digit with a leading
sign or whitespace padding). -/
theorem tempo_C5_amended : ∀ color : List Char,
    (∀ c ∈ color, c.toNat < 128) →
    (led_on color = LedOnOutcome.exit1 ↔
      ¬ ((startsWithHash color = false ∧
          (presetLookup (color.map asciiLower)).isSome = true) ∨
         (startsWithHash color = true ∧
          (lstripHash color).length = 6 ∧
          (pyInt16 ((lstripHash color).take 2)).isSome = true ∧
          (pyInt16 (((lstripHash color).drop 2).take 2)).isSome = true ∧
          (pyInt16 (((lstripHash color).drop 4).take 2)).isSome = true))) := by
  intro color _
  by_cases hsw : startsWithHash color = true
  · by_cases hlen : (lstripHash color).length = 6
    · cases h1 : pyInt16 ((lstripHash color).take 2) <;>
        cases h2 : pyInt16 (((lstripHash color).drop 2).take 2) <;>
        cases h3 : pyInt16 (((lstripHash color).drop 4).take 2) <;>
        simp [led_on, hsw, hlen, h1, h2, h3]
    · simp [led_on, hsw, hlen]
  · rw [Bool.not_eq_true] at hsw
    cases hp : presetLookup (color.map asciiLower) with
    | none => simp [led_on, hsw, hp]
    | some rgb =>
      obtain ⟨r, g, b⟩ := rgb
      simp [led_on, hsw, hp]

/-- Witness for the amended C5: a name outside the preset table exits
with code 1. -/
theorem tempo_C5_witness : led_on "purple".data = LedOnOutcome.exit1 :=
  (tempo_C5_amended "purple".data (by decide)).mpr (by decide)

/-- Counterexample to claim C7: a session-delete invocation without
--yes whose confirmation prompt is declined passes the (vacuous) argument
validation of that dispatcher, yet sends zero requests instead of exactly
one. -/
theorem tempo_C7_counterexample :
    (session_delete_requests "20250117/7BF3655C".data false true).length = 1 ∧
    (session_delete_requests "20250117/7BF3655C".data false false).length = 0 ∧
    (session_delete "20250117/7BF3655C".data false false).outcome =
      SessionDeleteOutcome.cancelled := by
  exact ⟨rfl, rfl, rfl⟩

/-- Claim C7 as amended: every dispatcher, on any invocation that passes
its argument validation and, for session-delete only, is authorized by
--yes or an affirmative prompt answer, sends exactly one request over the
connection and awaits its one response; a declined session-delete
confirmation sends none. -/
theorem tempo_C7_amended :
    session_list_requests.length = 1 ∧
    storage_info_requests.length = 1 ∧
    led_off_requests.length = 1 ∧
    logger_start_requests.length = 1 ∧
    logger_stop_requests.length = 1 ∧
    logger_arm_requests.length = 1 ∧
    logger_disarm_requests.length = 1 ∧
    settings_get_requests.length = 1 ∧
    (∀ color, led_on color ≠ LedOnOutcome.exit1 →
      (led_on_requests color).length = 1) ∧
    (∀ action, logger_control action ≠ LoggerControlOutcome.exit1 →
      (logger_control_requests action).length = 1) ∧
    (∀ a, settings_set a ≠ SettingsSetOutcome.exit1 →
      (settings_set_requests a).length = 1) ∧
    (∀ (s : List Char) (yes ans : Bool), yes = true ∨ ans = true →
      (session_delete_requests s yes ans).length = 1) := by
  refine ⟨rfl, rfl, rfl, rfl, rfl, rfl, rfl, rfl, ?_, ?_, ?_, ?_⟩
  · intro color h
    cases hx : led_on color with
    | exit1 => exact absurd hx h
    | send r => simp [led_on_requests, hx]
  · intro action h
    cases hx : logger_control action with
    | exit1 => exact absurd hx h
    | send a => simp [logger_control_requests, hx]
  · intro a h
    cases hx : settings_set a with
    | exit1 => exact absurd hx h
    | send r => simp [settings_set_requests, hx]
  · intro s yes ans h
    cases yes
    · cases ans
      · simp at h
      · rfl
    · rfl

/-- Witness for the amended C7 at concrete invocations of led-on,
logger-control, settings-set and session-delete. -/
theorem tempo_C7_witness :
    (led_on_requests "red".data).length = 1 ∧
    (logger_control_requests "arm".data).length = 1 ∧
    (settings_set_requests ⟨none, some true, none, none⟩).length = 1 ∧
    (session_delete_requests "x".data true false).length = 1 := by
  have h := tempo_C7_amended
  exact ⟨h.2.2.2.2.2.2.2.2.1 "red".data (by decide),
    h.2.2.2.2.2.2.2.2.2.1 "arm".data (by decide),
    h.2.2.2.2.2.2.2.2.2.2.1 ⟨none, some true, none, none⟩ (by decide),
    h.2.2.2.2.2.2.2.2.2.2.2 "x".data true false (Or.inl rfl)⟩

/-- Claim C8: the present plugin file version is a superset of the
earlier one (modelled from the spec, the earlier file not being among the
sources), adding exactly three commands and two fields and behaving
identically on the commands both versions share. -/
theorem tempo_C8 :
    (∀ c ∈ firstVersionCommands, c ∈ secondVersionCommands) ∧
    secondVersionCommands.length = firstVersionCommands.length + 3 ∧
    (∀ f ∈ firstVersionLoggerRespFields, f ∈ secondVersionLoggerRespFields) ∧
    secondVersionLoggerRespFields.length =
      firstVersionLoggerRespFields.length + 2 ∧
    (∀ cmd ∈ firstVersionCommands, ∀ inv,
      firstVersionDispatch cmd inv = secondVersionDispatch cmd inv) := by
  refine ⟨by decide, by decide, by decide, by decide, ?_⟩
  intro cmd hmem inv
  fin_cases hmem <;> rfl

/-- Witness for C8 at a shared command. -/
theorem tempo_C8_witness :
    firstVersionDispatch "session-list"
        ⟨[], [], [], false, false, ⟨none, none, none, none⟩⟩ =
      secondVersionDispatch "session-list"
        ⟨[], [], [], false, false, ⟨none, none, none, none⟩⟩ :=
  tempo_C8.2.2.2.2 "session-list" (by decide)
    ⟨[], [], [], false, false, ⟨none, none, none, none⟩⟩

end TempoGroup
